import Mathlib

/-!
Verification development for the unified file manager
(src/unified_file_managerv3.py).  The Python source is shallowly embedded:
strings are Lean strings, the filesystem is a flat list of existing paths
(each tagged as file or directory; a move renames the entry), CSV ledgers
are in-memory lists of rows, and each watcher's per-item loop body is a
state-transformer step function.  Filesystem moves can fail (permission or
other OS errors); this is modelled by an oracle argument returning
none on success or some (isPermissionError, message) on failure.
Timestamps are passed in as an opaque string argument.
-/

namespace UFM

/-! ## Python string primitives

Character-list implementations of the Python string operations used by the
source: startswith, endswith, the in operator, upper, lower.  They are kept
as plain structural recursion so that concrete instances reduce. -/

/-- Boolean test that the first character list is an initial segment of the
second, mirroring Python str.startswith. -/
def listPre : List Char → List Char → Bool
  | [], _ => true
  | _ :: _, [] => false
  | a :: as, b :: bs => a == b && listPre as bs

/-- Python s.startswith(p). -/
def pyStartsWith (s p : String) : Bool := listPre p.data s.data

/-- Python s.endswith(p): the reversed pattern starts the reversed string. -/
def pyEndsWith (s p : String) : Bool := listPre p.data.reverse s.data.reverse

/-- Helper for the Python in operator: does the needle occur at some
position of the haystack. -/
def strContainsAux (needle : List Char) : List Char → Bool
  | [] => listPre needle []
  | c :: t => listPre needle (c :: t) || strContainsAux needle t

/-- Python needle in hay (substring containment). -/
def pyIn (needle hay : String) : Bool := strContainsAux needle.data hay.data

/-- Python s.upper() (ASCII case mapping suffices for this code base). -/
def pyUpper (s : String) : String := ⟨s.data.map Char.toUpper⟩

/-- Python s.lower(). -/
def pyLower (s : String) : String := ⟨s.data.map Char.toLower⟩

/-! ## Path manipulation (Windows flavour, as used by the source)

The source runs on Windows paths; os.path.join inserts a backslash,
os.path.splitext splits at the last dot of the last component, and
basename/dirname split at the last path separator.  Drive/UNC corner cases
are not exercised by the source and are not modelled. -/

/-- Index of the last character satisfying p, if any. -/
def lastIdxWhere (p : Char → Bool) (cs : List Char) : Option Nat :=
  match cs.reverse.findIdx? p with
  | some k => some (cs.length - 1 - k)
  | none => none

/-- Path separator characters recognised by ntpath (sep and altsep). -/
def isPathSep (c : Char) : Bool := c == '\\' || c == '/'

/-- Python os.path.join(a, b) for a relative last component on Windows. -/
def pjoin (a b : String) : String := a ++ "\\" ++ b

/-- Python os.path.basename: everything after the last separator. -/
def basename (p : String) : String :=
  match lastIdxWhere isPathSep p.data with
  | some i => ⟨p.data.drop (i + 1)⟩
  | none => p

/-- Python os.path.dirname: everything before the last separator. -/
def dirname (p : String) : String :=
  match lastIdxWhere isPathSep p.data with
  | some i => ⟨p.data.take i⟩
  | none => ""

/-- Python os.path.splitext: split at the last dot of the path, provided the
dot lies in the last component and is preceded there by some non-dot
character (leading dots of the component never start an extension). -/
def splitext (p : String) : String × String :=
  let cs := p.data
  let nameStart : Nat :=
    match lastIdxWhere isPathSep cs with
    | some i => i + 1
    | none => 0
  match lastIdxWhere (fun c => c == '.') cs with
  | none => (p, "")
  | some d =>
    if nameStart ≤ d then
      let mid := (cs.drop nameStart).take (d - nameStart)
      if mid.any (fun c => c != '.') then (⟨cs.take d⟩, ⟨cs.drop d⟩) else (p, "")
    else (p, "")

/-! ## Decimal rendering of a counter

Python renders the uniqueness counter with str(counter); this is its decimal
representation.  A fuel-indexed structural recursion is used (fuel n is
always sufficient for value n) so that concrete instances reduce. -/

/-- Accumulator-style decimal digit list of n, most significant first,
prepended to acc.  The fuel-exhausted branch is unreachable for fuel at
least n. -/
def natReprAuxF : Nat → Nat → List Char → List Char
  | 0, n, acc => Nat.digitChar (n % 10) :: acc
  | fuel + 1, n, acc =>
    if n < 10 then Nat.digitChar n :: acc
    else natReprAuxF fuel (n / 10) (Nat.digitChar (n % 10) :: acc)

/-- Decimal string of a natural number, as Python str() renders a counter. -/
def natRepr (n : Nat) : String := ⟨natReprAuxF n n []⟩

/-- Left inverse step of decimal rendering: absorb one digit character.
Used only to prove that natRepr is injective. -/
def parseStep (a : Nat) (c : Char) : Nat := a * 10 + (c.toNat - 48)

/-! ## Configuration constants (lines 82-158 of the source) -/

/-- Main source folder containing job folders (SOURCE_BASE). -/
def SOURCE_BASE : String := "Y:\\E SANCHIT 25-26"

/-- Folder where OOC files are uploaded (UPLOAD_OOC). -/
def UPLOAD_OOC : String := pjoin SOURCE_BASE "Upload_ooc"

/-- Billing base folder (BILLING_BASE). -/
def BILLING_BASE : String := "Z:\\BILLING 2025-2026"

/-- Trigger keywords for OOC detection in PDF filenames (TRIGGER_KEYWORDS). -/
def TRIGGER_KEYWORDS : List String := ["OUT_OF_CHARGE_IR_", "OUT OF CHARGE_IR_"]

/-- File extensions monitored for loose file organization
(MONITORED_EXTENSIONS). -/
def MONITORED_EXTENSIONS : List String := [".pdf", ".docx", ".xlsx", ".jpg", ".png", ".zip"]

/-- Importer name to billing folder mapping (IMPORTER_MAP), in the insertion
order of the Python dict, which is also its iteration order. -/
def IMPORTER_MAP : List (String × String) := [
  ("ABBOTT HEALTHCARE PRIVATE LIMITED", "ABBOTT HEALTHCARE ( IMPORT )"),
  ("ANANDA BALAJI FOODS PRIVATE LIMITED", "ANANDA BALAJI FOODS PV LTD"),
  ("APOLLO HOSPITALS ENTERPRISE LIMITED", "APPOLLO HOSPITAL"),
  ("AVIAT NETWORKS (INDIA) PRIVATE LIMITED", "AVIAT NETWORKS (INDIA) PRIVATE LIMITED"),
  ("BALAJI WAFERS PRIVATE LIMITED", "BALAJI WAFERS ( IMPORT )"),
  ("BESTEX MM INDIA PRIVATE LIMITED", "BESTEX MM INDIA PVT LTD"),
  ("BLUE STAR ENGINEERING & ELECTRONICS LIMITED", "BLUE STAR"),
  ("BRISTOL-MYERS SQUIBB INDIA PRIVATE LIMITED", "BRISTOL MYERS"),
  ("EDIFICE MEDICAL TECHNOLOGIES", "EDIFICE MEDICAL SYSTEM"),
  ("GATEWAY TERMINALS INDIA PRIVATE LIMITED", "GATEWAY TERMINALS INDIA PVT LTD"),
  ("GUJARAT PIPAVAV PORT LIMITED", "GUJARAT PIPAVAV"),
  ("JAY MA INTERNATIONAL", "JAY MA INTERNATIONAL"),
  ("KANTILAL CHHOTALAL", "KANTILAL CHHOTALAL"),
  ("MEDLINE HEALTHCARE INDUSTRIES PRIVATE LIMITED", "MEDLINE HEALTHCARE  PVT LTD ( IMPORT )"),
  ("MUSASHI AUTO PARTS INDIA PRIVATE LIMITED", "MUSASHI AUTO PARTS"),
  ("NILKANTH AGRO TECH", "NILKANTH AGRO TECH"),
  ("SAKET TEX-DYE PVT.LTD.", "SAKET TEX DYE PVT LTD"),
  ("SANCO BESAN MILL", "Sanco Besan Mill"),
  ("SIDDHAYU LIFE SCIENCES PRIVATE LIMITED", "SIDDHAYU LIFE SCIENCES PVT ITD"),
  ("SVAAR PROCESS SOLUTIONS PRIVATE LIMITED", "SVAAR PROCESS SOLUTIONS PRIVATE LIMITED"),
  ("URSCHEL INDIA TRADING PRIVATE LIMITED", "URSCHEL INDIA"),
  ("ADVICS INDIA PRIVATE LIMITED", "ADVICS INDIA ( IMPORT )"),
  ("ANSELL INDIA PROTECTIVE PRODUCTS PRIVATE LIMITED", "ANSELL INDIA PVT LTD ( IMPORT )"),
  ("ARJOHUNTLEIGH HEALTHCARE INDIA PRIVATE LIMITED", "ARJOHUNTLEIGH HEALTHCARE INDIA PVT LTD"),
  ("B.BRAUN MEDICAL (INDIA) PRIVATE LIMITED", "B BRAUN MEDICAL ( IMPORT )"),
  ("BMW INDIA PRIVATE LIMITED", "BMW INDIA PVT LTD"),
  ("ESSITY INDIA PRIVATE LIMITED", "ESSITY INDIA ( IMPORT )"),
  ("MAXHILL TECHNOLOGIES", "MAXHILL TECHNOLOGIES"),
  ("SKODA AUTO VOLKSWAGEN INDIA PRIVATE LIMITED", "SKODA AUTO ( IMPORT )"),
  ("TESLA INDIA MOTORS AND ENERGY PRIVATE LIMITED", "TESLA INDIA"),
  ("BHARTI AIRTEL LIMITED", "BHARTI AIRTEL"),
  ("DUCATI INDIA PRIVATE LIMITED", "DUCATI INDIA PVT LTD"),
  ("BHARTI HEXACOM LIMITED", "BHARTI HEXACOM LIMITED")]

/-! ## Key and trigger extraction (lines 215-251 of the source) -/

/-- Source find_importer (line 215): first mapping key occurring as a
substring of the extracted text, in dict iteration order. -/
def find_importer (text : String) : Option String :=
  (IMPORTER_MAP.find? (fun kv => pyIn kv.1 text)).map (fun kv => kv.1)

/-- Python IMPORTER_MAP.get(key) (line 590). -/
def importerGet (key : String) : Option String :=
  (IMPORTER_MAP.find? (fun kv => kv.1 == key)).map (fun kv => kv.2)

/-- Source is_trigger_file (line 223): the upper-cased filename starts with
one of the trigger keywords. -/
def is_trigger_file (filename : String) : Bool :=
  TRIGGER_KEYWORDS.any (fun k => pyStartsWith (pyUpper filename) k)

/-- Separator class of the job number regexes: a Python whitespace
character, an underscore, or a hyphen. -/
def isJobSep (c : Char) : Bool :=
  c == ' ' || c == '\t' || c == '\n' || c == '\r' || c == '\x0b' || c == '\x0c' ||
    c == '_' || c == '-'

/-- Digits consumed by a greedy 4-to-5 digit group at the head: up to five
consecutive decimal digits. -/
def greedyDigits (cs : List Char) : List Char := (cs.takeWhile Char.isDigit).take 5

/-- Attempt of JOB_NUMBER_REGEX (line 120) at the head of the character
list: the pattern is case-insensitive IR or ER, an optional single
separator, then greedily four or five digits.  On success the normalized
PREFIX+digits key is returned, as in source extract_job_number. -/
def jobMatchAt : List Char → Option String
  | c1 :: c2 :: rest =>
    if (c1.toUpper == 'I' || c1.toUpper == 'E') && c2.toUpper == 'R' then
      let rest2 :=
        match rest with
        | c :: t => if isJobSep c then t else c :: t
        | [] => []
      let ds := greedyDigits rest2
      if 4 ≤ ds.length then some ⟨c1.toUpper :: 'R' :: ds⟩ else none
    else none
  | _ => none

/-- Leftmost-match scan for JOB_NUMBER_REGEX, as re.search performs it. -/
def jobSearch : List Char → Option String
  | [] => none
  | c :: t =>
    match jobMatchAt (c :: t) with
    | some r => some r
    | none => jobSearch t

/-- Source extract_job_number (line 229): first match of
JOB_NUMBER_REGEX anywhere in the text, normalized to PREFIX+digits. -/
def extract_job_number (text : String) : Option String := jobSearch text.data

/-- Attempt of the ingest pattern (line 308, case-insensitive IR, optional
single separator, exactly five digits) at the head of the character list;
returns the digit group. -/
def irMatchAt : List Char → Option String
  | c1 :: c2 :: rest =>
    if c1.toUpper == 'I' && c2.toUpper == 'R' then
      let rest2 :=
        match rest with
        | c :: t => if isJobSep c then t else c :: t
        | [] => []
      let ds := greedyDigits rest2
      if ds.length == 5 then some ⟨ds⟩ else none
    else none
  | _ => none

/-- Leftmost-match scan for the ingest five-digit pattern. -/
def irSearch : List Char → Option String
  | [] => none
  | c :: t =>
    match irMatchAt (c :: t) with
    | some r => some r
    | none => irSearch t

/-! ## Filesystem model

The filesystem is a flat list of existing paths, each marked as directory
or plain file.  os.path.exists is membership, os.listdir filters the
entries whose dirname is the listed directory, os.makedirs inserts a
directory entry, and a successful shutil.move renames an entry. -/

/-- Entry of the modelled filesystem: an existing path and whether it is a
directory. -/
structure Entry where
  path : String
  isDir : Bool
deriving DecidableEq, Repr

/-- Modelled filesystem: the list of existing entries. -/
abbrev Fs := List Entry

/-- Python os.path.exists. -/
def pathExists (fs : Fs) (p : String) : Bool := fs.any (fun e => e.path == p)

/-- Python os.path.isdir. -/
def isDirAt (fs : Fs) (p : String) : Bool := fs.any (fun e => e.path == p && e.isDir)

/-- Python os.listdir: the (name, isdir) pairs of entries directly inside
dir, in filesystem order. -/
def listdirEntries (fs : Fs) (dir : String) : List (String × Bool) :=
  fs.filterMap (fun e => if dirname e.path == dir then some (basename e.path, e.isDir) else none)

/-- Python os.makedirs(p, exist_ok=True), restricted to the single missing
level the source ever creates. -/
def makedirs (fs : Fs) (p : String) : Fs :=
  if pathExists fs p then fs else ⟨p, true⟩ :: fs

/-- Successful shutil.move: the entry at src is renamed to dst. -/
def moveEntry (fs : Fs) (src dst : String) : Fs :=
  fs.map (fun e => if e.path == src then ⟨dst, e.isDir⟩ else e)

/-! ## unique_filename (lines 239-251 of the source) -/

/-- Counter variant of a candidate path: the counter is inserted, after an
underscore, before the extension. -/
def variantPath (p : String) (c : Nat) : String :=
  (splitext p).1 ++ "_" ++ natRepr c ++ (splitext p).2

/-- While-loop of source unique_filename, fuel-indexed: try counters
c, c+1, ... and return the first variant not existing.  The zero-fuel
branch returns the current variant; fuel length-of-filesystem plus one is
always sufficient, so it is unreachable from unique_filename. -/
def uniqueLoop (fs : Fs) (base ext : String) : Nat → Nat → String
  | 0, c => base ++ "_" ++ natRepr c ++ ext
  | fuel + 1, c =>
    let newPath := base ++ "_" ++ natRepr c ++ ext
    if pathExists fs newPath then uniqueLoop fs base ext fuel (c + 1) else newPath

/-- Source unique_filename (line 239): return the candidate unchanged when
free, otherwise the first free counter variant starting from 1. -/
def unique_filename (fs : Fs) (destPath : String) : String :=
  if pathExists fs destPath then
    uniqueLoop fs (splitext destPath).1 (splitext destPath).2 (fs.length + 1) 1
  else destPath

/-! ## find_matching_job_folder (lines 259-270 of the source) -/

/-- Source find_matching_job_folder (line 259): first directory inside the
company folder whose upper-cased name contains the upper-cased job number;
returns its full path. -/
def find_matching_job_folder (fs : Fs) (companyPath : String) (jobNumber : String) :
    Option String :=
  (listdirEntries fs companyPath).findSome? (fun it =>
    if it.2 && pyIn (pyUpper jobNumber) (pyUpper it.1) then some (pjoin companyPath it.1)
    else none)

/-! ## Watcher statistics and ledger rows -/

/-- Per-watcher counters (the stats dictionaries of the source). -/
structure Stats where
  moved : Nat
  skipped : Nat
  errors : Nat
deriving DecidableEq, Repr

/-- Row of the OOC upload log (log_ooc_upload, line 281). -/
structure OocRow where
  ts : String
  filename : String
  jobNo : String
  destPath : String
  status : String
deriving DecidableEq, Repr

/-- Row of the job move log (log_job_move, line 382). -/
structure MoveRow where
  ts : String
  jobNo : String
  importer : String
  billingFolder : String
  triggerFile : String
  action : String
  comments : String
deriving DecidableEq, Repr

/-- Row of the revert history log (log_revert_history, line 422). -/
structure RevertHistRow where
  ts : String
  job : String
  revertedFrom : String
  revertedTo : String
  status : String
deriving DecidableEq, Repr

/-- Row of the loose file log (log_loose_file, line 642). -/
structure LooseRow where
  ts : String
  company : String
  filename : String
  source : String
  dest : String
  status : String
deriving DecidableEq, Repr

/-! ## Watcher 1: OOC file uploader (lines 293-373 of the source) -/

/-- State touched by the OOC upload watcher: the filesystem, the upload log
and the counters. -/
structure OocState where
  fs : Fs
  log : List OocRow
  stats : Stats
deriving DecidableEq, Repr

/-- Terminal classification of one inbox entry in a poll cycle. -/
inductive OocOutcome where
  | isDirSkip
  | notPdf
  | skippedNoPattern
  | errorNoFolder
  | moved
  | errorMoveFail
deriving DecidableEq, Repr

/-- Matching test of the ingest folder search (line 342): a directory whose
upper-cased name contains the upper-cased job number. -/
def ingestFolderMatch (jobNo : String) (it : String × Bool) : Bool :=
  it.2 && pyIn (pyUpper jobNo) (pyUpper it.1)

/-- Loop body of watcher_ooc_upload (lines 312-365) for one listed
filename.  The fail oracle decides whether shutil.move raises, yielding the
error message. -/
def watcher_ooc_upload_step (fail : String → String → Option (Bool × String)) (now : String)
    (s : OocState) (filename : String) : OocState × OocOutcome :=
  let filePath := pjoin UPLOAD_OOC filename
  if isDirAt s.fs filePath then (s, .isDirSkip)
  else if !(pyEndsWith (pyLower filename) ".pdf") then (s, .notPdf)
  else
    match irSearch filename.data with
    | none =>
      ({ s with stats := { s.stats with skipped := s.stats.skipped + 1 } }, .skippedNoPattern)
    | some digits =>
      let jobNo := "IR" ++ digits
      let exactFolder := pjoin SOURCE_BASE jobNo
      let folderOpt : Option String :=
        if pathExists s.fs exactFolder then some exactFolder
        else
          match (listdirEntries s.fs SOURCE_BASE).find? (ingestFolderMatch jobNo) with
          | some it => some (pjoin SOURCE_BASE it.1)
          | none => none
      match folderOpt with
      | none =>
        ({ s with
            log := s.log ++ [⟨now, filename, jobNo, "", "ERROR: Folder not found"⟩],
            stats := { s.stats with errors := s.stats.errors + 1 } }, .errorNoFolder)
      | some jobFolder =>
        let destPath := unique_filename s.fs (pjoin jobFolder filename)
        match fail filePath destPath with
        | none =>
          ({ fs := moveEntry s.fs filePath destPath,
             log := s.log ++ [⟨now, filename, jobNo, destPath, "MOVED"⟩],
             stats := { s.stats with moved := s.stats.moved + 1 } }, .moved)
        | some fe =>
          ({ s with
              log := s.log ++ [⟨now, filename, jobNo, "", "ERROR: " ++ fe.2⟩],
              stats := { s.stats with errors := s.stats.errors + 1 } }, .errorMoveFail)

/-! ## Watcher 2: job folder mover and its transaction ledger
(lines 379-633 of the source) -/

/-- State touched by the job mover and the undo manager: the filesystem,
the job move log, the transaction ledger REVERT_LOG (none when the CSV file
does not exist; otherwise all rows including the header), the revert
history log and the counters. -/
structure JobMoveState where
  fs : Fs
  moveLog : List MoveRow
  revertLog : Option (List (List String))
  revertHistory : List RevertHistRow
  stats : Stats
deriving DecidableEq, Repr

/-- Result of source move_folder (line 406): the final destination or the
raised error, together with the filesystem and ledger after the call. -/
structure MoveFolderResult where
  res : Except (Bool × String) String
  fs : Fs
  revertLog : Option (List (List String))
deriving Repr

/-- Source move_folder (lines 406-419): create the destination parent,
timestamp-suffix the destination on a name clash, move the folder, then
append one ledger row [job, src, dest, now] via log_revert.  When the move
raises, nothing is moved and no ledger row is appended (the parent
directory may already have been created). -/
def move_folder (fail : String → String → Option (Bool × String)) (now : String)
    (fs : Fs) (revertLog : Option (List (List String)))
    (src destParent : String) : MoveFolderResult :=
  let job := basename src
  let dest0 := pjoin destParent job
  let fs1 := makedirs fs destParent
  let dest := if pathExists fs1 dest0 then dest0 ++ "_" ++ now else dest0
  match fail src dest with
  | some fe => ⟨.error fe, fs1, revertLog⟩
  | none => ⟨.ok dest, moveEntry fs1 src dest, some (revertLog.getD [] ++ [[job, src, dest, now]])⟩

/-- Terminal classification of one trigger file in a job mover poll cycle. -/
inductive JobOutcome where
  | skipUploadFolder
  | skipGone
  | skipNoText
  | skipNoImporter
  | skipNoMapping
  | moved
  | errorMoveFail
deriving DecidableEq, Repr

/-- Loop body of watcher_job_move (lines 552-625) for one trigger file
path.  The extractedText oracle stands for extract_text_from_pdf (an
external capability); the fail oracle decides whether shutil.move raises
and whether the exception is a PermissionError. -/
def watcher_job_move_step (fail : String → String → Option (Bool × String))
    (extractedText : String → String) (now : String)
    (s : JobMoveState) (triggerPath : String) : JobMoveState × JobOutcome :=
  let jobPath := dirname triggerPath
  let job := basename jobPath
  let trigger := basename triggerPath
  if pyLower job == "upload_ooc" then (s, .skipUploadFolder)
  else if !(pathExists s.fs jobPath) then (s, .skipGone)
  else
    let text := extractedText triggerPath
    if text == "" then
      ({ s with
          moveLog := s.moveLog ++
            [⟨now, job, "", "", trigger, "SKIPPED", "Could not extract text from PDF"⟩],
          stats := { s.stats with skipped := s.stats.skipped + 1 } }, .skipNoText)
    else
      match find_importer text with
      | none =>
        ({ s with
            moveLog := s.moveLog ++
              [⟨now, job, "", "", trigger, "SKIPPED", "No matching importer found in PDF"⟩],
            stats := { s.stats with skipped := s.stats.skipped + 1 } }, .skipNoImporter)
      | some importer =>
        match importerGet importer with
        | none =>
          ({ s with
              moveLog := s.moveLog ++
                [⟨now, job, importer, "", trigger, "SKIPPED", "No billing folder mapping found"⟩],
              stats := { s.stats with skipped := s.stats.skipped + 1 } }, .skipNoMapping)
        | some billingFolder =>
          let destParent := pjoin BILLING_BASE billingFolder
          let r := move_folder fail now s.fs s.revertLog jobPath destParent
          match r.res with
          | .ok finalPath =>
            ({ fs := r.fs,
               moveLog := s.moveLog ++
                 [⟨now, job, importer, billingFolder, trigger, "MOVED", "Moved to " ++ finalPath⟩],
               revertLog := r.revertLog,
               revertHistory := s.revertHistory,
               stats := { s.stats with moved := s.stats.moved + 1 } }, .moved)
          | .error fe =>
            ({ fs := r.fs,
               moveLog := s.moveLog ++
                 [⟨now, job, importer, billingFolder, trigger, "ERROR",
                   (if fe.1 then "Permission denied: " else "Move failed: ") ++ fe.2⟩],
               revertLog := r.revertLog,
               revertHistory := s.revertHistory,
               stats := { s.stats with errors := s.stats.errors + 1 } }, .errorMoveFail)

/-! ## Undo manager: revert_job (lines 439-513 of the source) -/

/-- Row filter of revert_job line 458: a non-empty row of at least three
fields whose first field equals the requested job number (plain string
equality). -/
def revertRowMatches (jobNo : String) (r : List String) : Bool :=
  !r.isEmpty && decide (3 ≤ r.length) && r.headD "" == jobNo

/-- Result of revert_job: the returned message, the selected
(moved-path, original-path) pair when a ledger entry was selected, and the
state after the call. -/
structure RevertResult where
  msg : String
  plan : Option (String × String)
  state : JobMoveState
deriving DecidableEq, Repr

/-- Source revert_job (lines 439-513): read the ledger, select the last
matching row, take its original path (field 1) and moved path (field 2),
check the moved path exists and the original parent exists,
timestamp-suffix the destination if occupied, move back, and append one
revert history row recording success or failure.  The ledger itself is
only read. -/
def revert_job (fail : String → String → Option (Bool × String)) (now : String)
    (jobNo : String) (s : JobMoveState) : RevertResult :=
  match s.revertLog with
  | none => ⟨"Revert log file not found.", none, s⟩
  | some allRows =>
    if allRows.isEmpty then ⟨"Revert log is empty.", none, s⟩
    else
      let rows := allRows.drop 1
      let matchRows := rows.filter (revertRowMatches jobNo)
      match matchRows.getLast? with
      | none => ⟨"No revert entry found for " ++ jobNo ++ ".", none, s⟩
      | some lastRow =>
        let original := lastRow.getD 1 ""
        let moved := lastRow.getD 2 ""
        if !(pathExists s.fs moved) then
          ⟨"Folder no longer exists at: " ++ moved, some (moved, original),
            { s with revertHistory := s.revertHistory ++
                [⟨now, jobNo, moved, original, "FAILED: Folder not at moved location"⟩] }⟩
        else
          let originalParent := dirname original
          if !(pathExists s.fs originalParent) then
            ⟨"Original directory doesn't exist: " ++ originalParent, some (moved, original),
              { s with revertHistory := s.revertHistory ++
                  [⟨now, jobNo, moved, original, "FAILED: Original directory missing"⟩] }⟩
          else
            let finalDestination :=
              if pathExists s.fs original then original ++ "_" ++ now else original
            match fail moved finalDestination with
            | some fe =>
              if fe.1 then
                ⟨"Permission denied: " ++ fe.2, some (moved, original),
                  { s with revertHistory := s.revertHistory ++
                      [⟨now, jobNo, "Unknown", "Unknown",
                        "FAILED: Permission denied - " ++ fe.2⟩] }⟩
              else
                ⟨"Error reverting: " ++ fe.2, some (moved, original),
                  { s with revertHistory := s.revertHistory ++
                      [⟨now, jobNo, "Unknown", "Unknown", "FAILED: " ++ fe.2⟩] }⟩
            | none =>
              ⟨"Reverted successfully to " ++ finalDestination, some (moved, original),
                { s with
                    fs := moveEntry s.fs moved finalDestination,
                    revertHistory := s.revertHistory ++
                      [⟨now, jobNo, moved, finalDestination, "SUCCESS"⟩] }⟩

/-! ## Watcher 3: loose file organizer (lines 654-733 of the source) -/

/-- State touched by the loose file watcher. -/
structure LooseState where
  fs : Fs
  log : List LooseRow
  stats : Stats
deriving DecidableEq, Repr

/-- Terminal classification of one company-folder entry in a loose file
poll cycle. -/
inductive LooseOutcome where
  | isDirSkip
  | extNotMonitored
  | noKey
  | noFolder
  | moved
  | errorMoveFail
deriving DecidableEq, Repr

/-- Loop body of watcher_loose_files (lines 689-725) for one item listed in
a company folder. -/
def watcher_loose_files_step (fail : String → String → Option (Bool × String)) (now : String)
    (s : LooseState) (companyFolder : String) (item : String) : LooseState × LooseOutcome :=
  let companyPath := pjoin BILLING_BASE companyFolder
  let itemPath := pjoin companyPath item
  if isDirAt s.fs itemPath then (s, .isDirSkip)
  else if !(MONITORED_EXTENSIONS.contains (pyLower (splitext item).2)) then (s, .extNotMonitored)
  else
    match extract_job_number item with
    | none => (s, .noKey)
    | some jobNumber =>
      match find_matching_job_folder s.fs companyPath jobNumber with
      | none => (s, .noFolder)
      | some jobFolderPath =>
        let destPath := unique_filename s.fs (pjoin jobFolderPath item)
        match fail itemPath destPath with
        | none =>
          ({ fs := moveEntry s.fs itemPath destPath,
             log := s.log ++ [⟨now, companyFolder, item, itemPath, destPath, "MOVED"⟩],
             stats := { s.stats with moved := s.stats.moved + 1 } }, .moved)
        | some fe =>
          ({ s with
              log := s.log ++ [⟨now, companyFolder, item, itemPath, "", "ERROR: " ++ fe.2⟩],
              stats := { s.stats with errors := s.stats.errors + 1 } }, .errorMoveFail)

/-! ## Auxiliary lemmas -/

/-- Characterisation of listPre as the list-prefix relation. -/
theorem listPre_iff (ps : List Char) : ∀ ss : List Char, listPre ps ss = true ↔ ps <+: ss := by
  induction ps with
  | nil => intro ss; simp [listPre]
  | cons a as ih =>
    intro ss
    cases ss with
    | nil => simp [listPre]
    | cons b bs => simp [listPre, List.cons_prefix_cons, ih bs]

/-- Value of a digit character produced by Nat.digitChar below ten. -/
theorem digitChar_toNat {n : Nat} (h : n < 10) : (Nat.digitChar n).toNat = 48 + n := by
  interval_cases n <;> decide

/-- Parsing the rendered digits of n prepended to acc equals continuing the
fold from n over acc, for sufficient fuel. -/
theorem foldl_parseStep_natReprAuxF :
    ∀ (fuel n : Nat) (acc : List Char), n ≤ fuel →
      List.foldl parseStep 0 (natReprAuxF fuel n acc) = List.foldl parseStep n acc := by
  intro fuel
  induction fuel with
  | zero =>
    intro n acc h
    have hn : n = 0 := Nat.le_zero.mp h
    subst hn
    show List.foldl parseStep (parseStep 0 (Nat.digitChar (0 % 10))) acc = _
    have : parseStep 0 (Nat.digitChar (0 % 10)) = 0 := by decide
    rw [this]
  | succ fuel ih =>
    intro n acc h
    by_cases h10 : n < 10
    · show List.foldl parseStep 0 (if n < 10 then _ else _) = _
      rw [if_pos h10]
      show List.foldl parseStep (parseStep 0 (Nat.digitChar n)) acc = _
      have : parseStep 0 (Nat.digitChar n) = n := by
        unfold parseStep
        rw [digitChar_toNat h10]
        omega
      rw [this]
    · show List.foldl parseStep 0 (if n < 10 then _ else _) = _
      rw [if_neg h10]
      have hlt : n / 10 ≤ fuel := by
        have := Nat.div_lt_self (by omega : 0 < n) (by omega : 1 < 10)
        omega
      rw [ih (n / 10) (Nat.digitChar (n % 10) :: acc) hlt]
      show List.foldl parseStep (parseStep (n / 10) (Nat.digitChar (n % 10))) acc = _
      have : parseStep (n / 10) (Nat.digitChar (n % 10)) = n := by
        unfold parseStep
        rw [digitChar_toNat (Nat.mod_lt _ (by omega))]
        have := Nat.div_add_mod n 10
        omega
      rw [this]

/-- Decimal rendering natRepr is injective. -/
theorem natRepr_injective : Function.Injective natRepr := by
  intro m n h
  have hd : natReprAuxF m m [] = natReprAuxF n n [] := congrArg String.data h
  have hm := foldl_parseStep_natReprAuxF m m [] le_rfl
  have hn := foldl_parseStep_natReprAuxF n n [] le_rfl
  rw [hd, hn] at hm
  simpa using hm.symm

/-- Data of an appended string splits into appended data lists. -/
theorem strData_append (a b : String) : (a ++ b).data = a.data ++ b.data := rfl

/-- Strings with equal character data are equal. -/
theorem strEqOfData {a b : String} (h : a.data = b.data) : a = b := by
  cases a
  cases b
  exact congrArg String.mk h

/-- Counter variants of the same candidate path are pairwise distinct. -/
theorem variantPath_injective (p : String) : Function.Injective (variantPath p) := by
  intro c1 c2 h
  apply natRepr_injective
  have h2 := congrArg String.data h
  unfold variantPath at h2
  rw [strData_append, strData_append, strData_append, strData_append, strData_append,
    strData_append] at h2
  have h3 := List.append_cancel_right h2
  have h4 := List.append_cancel_left h3
  exact strEqOfData h4

/-- Nodup paths all present in the filesystem are no more numerous than its
entries. -/
theorem nodup_paths_length_le (fs : Fs) (ps : List String)
    (hnd : ps.Nodup) (hmem : ∀ q ∈ ps, pathExists fs q = true) : ps.length ≤ fs.length := by
  have hsub : ps.toFinset ⊆ (fs.map Entry.path).toFinset := by
    intro q hq
    rw [List.mem_toFinset] at hq ⊢
    have hx := hmem q hq
    rw [pathExists, List.any_eq_true] at hx
    obtain ⟨en, hen, heq⟩ := hx
    rw [beq_iff_eq] at heq
    exact List.mem_map.mpr ⟨en, hen, heq⟩
  calc ps.length = ps.toFinset.card := (List.toFinset_card_of_nodup hnd).symm
    _ ≤ (fs.map Entry.path).toFinset.card := Finset.card_le_card hsub
    _ ≤ (fs.map Entry.path).length := List.toFinset_card_le _
    _ = fs.length := List.length_map _ _

/-- While-loop correctness of unique_filename: with sufficient fuel, if all
counter variants from start up to N are taken and the N variant is free,
the loop returns the N variant. -/
theorem uniqueLoop_spec (fs : Fs) (b e : String) :
    ∀ fuel start N : Nat, start ≤ N → N + 1 ≤ start + fuel →
      (∀ c, start ≤ c → c < N → pathExists fs (b ++ "_" ++ natRepr c ++ e) = true) →
      pathExists fs (b ++ "_" ++ natRepr N ++ e) = false →
      uniqueLoop fs b e fuel start = b ++ "_" ++ natRepr N ++ e := by
  intro fuel
  induction fuel with
  | zero => intro start N h1 h2 _ _; omega
  | succ fuel ih =>
    intro start N h1 h2 hmem hfree
    rcases Nat.eq_or_lt_of_le h1 with heq | hlt
    · subst heq
      show (if pathExists fs (b ++ "_" ++ natRepr start ++ e) = true then _ else _) = _
      rw [if_neg (by rw [hfree]; exact Bool.false_ne_true)]
    · have htaken := hmem start le_rfl hlt
      show (if pathExists fs (b ++ "_" ++ natRepr start ++ e) = true then _ else _) = _
      rw [if_pos htaken]
      exact ih (start + 1) N hlt (by omega) (fun c hc1 hc2 => hmem c (by omega) hc2) hfree

/-- Creating a directory preserves every existing path. -/
theorem pathExists_makedirs_of (fs : Fs) (p q : String) (h : pathExists fs q = true) :
    pathExists (makedirs fs p) q = true := by
  unfold makedirs
  split
  · exact h
  · simp only [pathExists, List.any_cons]
    rw [pathExists] at h
    rw [h]
    simp

/-- Successful move_folder appends exactly one transaction row recording
the job, its original path and the final destination it returned. -/
theorem move_folder_res_ok (fail : String → String → Option (Bool × String)) (now : String)
    (fs : Fs) (rl : Option (List (List String))) (src dp finalPath : String)
    (h : (move_folder fail now fs rl src dp).res = .ok finalPath) :
    (move_folder fail now fs rl src dp).revertLog =
      some (rl.getD [] ++ [[basename src, src, finalPath, now]]) := by
  cases hf : fail src (if pathExists (makedirs fs dp) (pjoin dp (basename src)) = true
      then pjoin dp (basename src) ++ "_" ++ now else pjoin dp (basename src)) with
  | some fe =>
    simp only [move_folder, hf] at h
    exact Except.noConfusion h
  | none =>
    simp only [move_folder, hf] at h ⊢
    rw [Except.ok.injEq] at h
    rw [h]

/-- Failing move_folder leaves the transaction ledger unchanged and the
filesystem as it was, apart from the created destination parent. -/
theorem move_folder_res_error (fail : String → String → Option (Bool × String)) (now : String)
    (fs : Fs) (rl : Option (List (List String))) (src dp : String) (fe : Bool × String)
    (h : (move_folder fail now fs rl src dp).res = .error fe) :
    (move_folder fail now fs rl src dp).revertLog = rl
    ∧ (move_folder fail now fs rl src dp).fs = makedirs fs dp := by
  cases hf : fail src (if pathExists (makedirs fs dp) (pjoin dp (basename src)) = true
      then pjoin dp (basename src) ++ "_" ++ now else pjoin dp (basename src)) with
  | some fe2 => exact ⟨by simp only [move_folder, hf], by simp only [move_folder, hf]⟩
  | none =>
    simp only [move_folder, hf] at h
    exact Except.noConfusion h

/-! ## Claim theorems -/

/-- C7: is_trigger_file accepts a filename exactly when the upper-cased
filename starts with one of the configured literal trigger keywords
(prefix of the string, not substring containment); in particular it
accepts OUT_OF_CHARGE_IR_12345.pdf and rejects
INBOUND_OOC_OUT_OF_CHARGE_IR_12345.pdf. -/
theorem C7_trigger_is_prefix_only :
    (∀ filename : String, is_trigger_file filename = true ↔
      ∃ k ∈ TRIGGER_KEYWORDS, k.data <+: (pyUpper filename).data)
    ∧ is_trigger_file "OUT_OF_CHARGE_IR_12345.pdf" = true
    ∧ is_trigger_file "INBOUND_OOC_OUT_OF_CHARGE_IR_12345.pdf" = false := by
  refine ⟨fun filename => ?_, by decide, by decide⟩
  simp [is_trigger_file, pyStartsWith, List.any_eq_true, listPre_iff]

/-- Witness for C7 at the two concrete filenames of the claim. -/
theorem C7_trigger_is_prefix_only_witness :
    is_trigger_file "OUT_OF_CHARGE_IR_12345.pdf" = true
    ∧ is_trigger_file "INBOUND_OOC_OUT_OF_CHARGE_IR_12345.pdf" = false :=
  ⟨C7_trigger_is_prefix_only.2.1, C7_trigger_is_prefix_only.2.2⟩

/-- C10: the ingest watcher only processes inbox files whose lower-cased
name ends in .pdf; any other file is classified notPdf and the state
(filesystem, ingest log and all counters) is left completely unchanged. -/
theorem C10_ingest_ignores_non_pdf (fail : String → String → Option (Bool × String))
    (now : String) (s : OocState) (filename : String)
    (hdir : isDirAt s.fs (pjoin UPLOAD_OOC filename) = false)
    (hpdf : pyEndsWith (pyLower filename) ".pdf" = false) :
    watcher_ooc_upload_step fail now s filename = (s, .notPdf) := by
  unfold watcher_ooc_upload_step
  rw [if_neg (by rw [hdir]; exact Bool.false_ne_true)]
  rw [if_pos (by rw [hpdf]; rfl)]

/-- Witness for C10: a text file carrying a job key in its name is left
untouched, unlogged and uncounted. -/
theorem C10_ingest_ignores_non_pdf_witness :
    watcher_ooc_upload_step (fun _ _ => none) "t0" ⟨[], [], ⟨0, 0, 0⟩⟩ "IR12345.txt" =
      (⟨[], [], ⟨0, 0, 0⟩⟩, .notPdf) :=
  C10_ingest_ignores_non_pdf (fun _ _ => none) "t0" ⟨[], [], ⟨0, 0, 0⟩⟩ "IR12345.txt"
    (by decide) (by decide)

/-- C9: in the reconciliation watcher, a monitored-extension file from
which no job key can be extracted, or whose job key matches no sibling
job folder, leaves the whole state unchanged: no move, no log row of any
status, no counter change. -/
theorem C9_loose_non_match_untouched (fail : String → String → Option (Bool × String))
    (now : String) (s : LooseState) (company item : String)
    (hdir : isDirAt s.fs (pjoin (pjoin BILLING_BASE company) item) = false)
    (hext : MONITORED_EXTENSIONS.contains (pyLower (splitext item).2) = true)
    (hnomatch : extract_job_number item = none ∨
      ∀ j, extract_job_number item = some j →
        find_matching_job_folder s.fs (pjoin BILLING_BASE company) j = none) :
    (watcher_loose_files_step fail now s company item).1 = s := by
  unfold watcher_loose_files_step
  rw [if_neg (by rw [hdir]; exact Bool.false_ne_true)]
  rw [if_neg (by rw [hext]; simp)]
  cases hj : extract_job_number item with
  | none => rfl
  | some j =>
    rcases hnomatch with hnone | hfold
    · rw [hj] at hnone
      exact absurd hnone (by simp)
    · simp [hfold j hj]

/-- Witness for C9: a docx stray file carrying no job key in its name is
left in place with nothing logged and no counter change. -/
theorem C9_loose_non_match_untouched_witness :
    (watcher_loose_files_step (fun _ _ => none) "t0"
        ⟨[⟨pjoin (pjoin BILLING_BASE "ACME") "Packing_List.docx", false⟩], [], ⟨0, 0, 0⟩⟩
        "ACME" "Packing_List.docx").1 =
      ⟨[⟨pjoin (pjoin BILLING_BASE "ACME") "Packing_List.docx", false⟩], [], ⟨0, 0, 0⟩⟩ :=
  C9_loose_non_match_untouched (fun _ _ => none) "t0"
    ⟨[⟨pjoin (pjoin BILLING_BASE "ACME") "Packing_List.docx", false⟩], [], ⟨0, 0, 0⟩⟩
    "ACME" "Packing_List.docx" (by decide) (by decide) (Or.inl (by decide))

/-- C4: revert_job never mutates the MoveTransaction ledger: for every
initial state and every outcome the transaction log REVERT_LOG is
identical before and after, the job move log is untouched, and the only
log the call may extend is the separate revert history ledger, by
appending. -/
theorem C4_revert_preserves_transaction_log (fail : String → String → Option (Bool × String))
    (now jobNo : String) (s : JobMoveState) :
    (revert_job fail now jobNo s).state.revertLog = s.revertLog
    ∧ (revert_job fail now jobNo s).state.moveLog = s.moveLog
    ∧ ∃ appended, (revert_job fail now jobNo s).state.revertHistory =
        s.revertHistory ++ appended := by
  simp only [revert_job]
  repeat' split
  all_goals first
    | exact ⟨rfl, rfl, _, rfl⟩
    | exact ⟨rfl, rfl, [], by simp⟩

/-- C2: when the ledger holds at least one MoveTransaction row for the
requested job key, revert_job selects the last matching row in ledger
file order (timestamps are never compared) and plans the move with that
row's moved path (field 2) as source and its original path (field 1) as
destination. -/
theorem C2_revert_selects_last_row (fail : String → String → Option (Bool × String))
    (now jobNo : String) (s : JobMoveState) (allRows : List (List String))
    (lastRow : List String)
    (hlog : s.revertLog = some allRows)
    (hsel : ((allRows.drop 1).filter (revertRowMatches jobNo)).getLast? = some lastRow) :
    (revert_job fail now jobNo s).plan = some (lastRow.getD 2 "", lastRow.getD 1 "") := by
  have hne : allRows.isEmpty = false := by
    cases allRows with
    | nil => simp at hsel
    | cons a t => rfl
  simp only [revert_job, hlog, hne]
  simp only [Bool.false_eq_true, if_false, hsel]
  repeat' split
  all_goals rfl

/-- Witness for C2: with two ledger rows for IR00451 whose first row bears
the later timestamp t9, revert selects the second (last appended) row. -/
theorem C2_revert_selects_last_row_witness :
    (revert_job (fun _ _ => none) "t5" "IR00451"
        ⟨[], [],
          some [["Job No", "Original Path", "Moved Path", "Timestamp"],
                ["IR00451", "Y:\\old", "Z:\\old", "t9"],
                ["IR00451", "Y:\\new", "Z:\\new", "t1"]],
          [], ⟨0, 0, 0⟩⟩).plan = some ("Z:\\new", "Y:\\new") :=
  C2_revert_selects_last_row (fun _ _ => none) "t5" "IR00451"
    ⟨[], [],
      some [["Job No", "Original Path", "Moved Path", "Timestamp"],
            ["IR00451", "Y:\\old", "Z:\\old", "t9"],
            ["IR00451", "Y:\\new", "Z:\\new", "t1"]],
      [], ⟨0, 0, 0⟩⟩
    [["Job No", "Original Path", "Moved Path", "Timestamp"],
     ["IR00451", "Y:\\old", "Z:\\old", "t9"],
     ["IR00451", "Y:\\new", "Z:\\new", "t1"]]
    ["IR00451", "Y:\\new", "Z:\\new", "t1"] rfl (by decide)

/-- Counterexample to C3 as stated: reverting a never-promoted key fails,
but no FAILED RevertRecord is appended to the revert history ledger; the
history stays empty, where the claim requires one FAILED row. -/
theorem C3_counterexample :
    (revert_job (fun _ _ => none) "t0" "IR77777"
        ⟨[], [], some [["Job No", "Original Path", "Moved Path", "Timestamp"]], [],
          ⟨0, 0, 0⟩⟩).msg = "No revert entry found for IR77777."
    ∧ (revert_job (fun _ _ => none) "t0" "IR77777"
        ⟨[], [], some [["Job No", "Original Path", "Moved Path", "Timestamp"]], [],
          ⟨0, 0, 0⟩⟩).state.revertHistory = [] := by
  decide

/-- C3 (amended): a revert of a key with no MoveTransaction in the ledger
fails with no filesystem change and with no RevertRecord appended (the
state is returned unchanged); a revert whose selected row's moved path no
longer exists moves nothing and appends exactly one FAILED RevertRecord
to the revert history ledger. -/
theorem C3_amended_revert_failures (fail : String → String → Option (Bool × String))
    (now jobNo : String) (s : JobMoveState) (allRows : List (List String))
    (hlog : s.revertLog = some allRows) :
    (((allRows.drop 1).filter (revertRowMatches jobNo)).getLast? = none →
      (revert_job fail now jobNo s).state = s ∧ (revert_job fail now jobNo s).plan = none)
    ∧ (∀ lastRow, ((allRows.drop 1).filter (revertRowMatches jobNo)).getLast? = some lastRow →
      pathExists s.fs (lastRow.getD 2 "") = false →
      (revert_job fail now jobNo s).state.fs = s.fs
      ∧ (revert_job fail now jobNo s).state.revertHistory = s.revertHistory ++
          [⟨now, jobNo, lastRow.getD 2 "", lastRow.getD 1 "",
            "FAILED: Folder not at moved location"⟩]) := by
  constructor
  · intro hsel
    cases hne : allRows.isEmpty with
    | true =>
      simp only [revert_job, hlog]
      rw [if_pos hne]
      exact ⟨rfl, rfl⟩
    | false =>
      simp only [revert_job, hlog, hne, Bool.false_eq_true, if_false, hsel]
      constructor <;> first | rfl | trivial
  · intro lastRow hsel hmiss
    have hne : allRows.isEmpty = false := by
      cases allRows with
      | nil => simp at hsel
      | cons a t => rfl
    simp only [revert_job, hlog, hne, Bool.false_eq_true, if_false, hsel]
    rw [if_pos (show (!pathExists s.fs (lastRow.getD 2 "")) = true by rw [hmiss]; rfl)]
    exact ⟨rfl, rfl⟩

/-- Witness for C3 (amended) at two concrete ledgers: a header-only ledger
leaves the state unchanged, and a ledger whose single row points at a
vanished moved path appends exactly one FAILED history row. -/
theorem C3_amended_revert_failures_witness :
    ((revert_job (fun _ _ => none) "t0" "IR77777"
        ⟨[], [], some [["Job No", "Original Path", "Moved Path", "Timestamp"]], [],
          ⟨0, 0, 0⟩⟩).state =
      ⟨[], [], some [["Job No", "Original Path", "Moved Path", "Timestamp"]], [], ⟨0, 0, 0⟩⟩)
    ∧ (revert_job (fun _ _ => none) "t0" "IR00451"
        ⟨[], [], some [["Job No", "Original Path", "Moved Path", "Timestamp"],
                       ["IR00451", "Y:\\a", "Z:\\b", "t1"]], [],
          ⟨0, 0, 0⟩⟩).state.revertHistory =
      [⟨"t0", "IR00451", "Z:\\b", "Y:\\a", "FAILED: Folder not at moved location"⟩] :=
  ⟨((C3_amended_revert_failures (fun _ _ => none) "t0" "IR77777"
      ⟨[], [], some [["Job No", "Original Path", "Moved Path", "Timestamp"]], [], ⟨0, 0, 0⟩⟩
      [["Job No", "Original Path", "Moved Path", "Timestamp"]] rfl).1 (by decide)).1,
   by
    have h := ((C3_amended_revert_failures (fun _ _ => none) "t0" "IR00451"
      ⟨[], [], some [["Job No", "Original Path", "Moved Path", "Timestamp"],
                     ["IR00451", "Y:\\a", "Z:\\b", "t1"]], [], ⟨0, 0, 0⟩⟩
      [["Job No", "Original Path", "Moved Path", "Timestamp"],
       ["IR00451", "Y:\\a", "Z:\\b", "t1"]] rfl).2
      ["IR00451", "Y:\\a", "Z:\\b", "t1"] (by decide) (by decide)).2
    simpa using h⟩

/-- Counterexample to C6 as stated: the keys ir00451 and IR00451 differ
only in letter case, yet the MoveTransaction lookup of revert_job finds
the ledger row for IR00451 and none for ir00451. -/
theorem C6_counterexample :
    pyUpper "ir00451" = pyUpper "IR00451"
    ∧ (revert_job (fun _ _ => none) "t0" "ir00451"
        ⟨[], [], some [["Job No", "Original Path", "Moved Path", "Timestamp"],
                       ["IR00451", "Y:\\a", "Z:\\b", "t1"]], [], ⟨0, 0, 0⟩⟩).plan = none
    ∧ (revert_job (fun _ _ => none) "t0" "ir00451"
        ⟨[], [], some [["Job No", "Original Path", "Moved Path", "Timestamp"],
                       ["IR00451", "Y:\\a", "Z:\\b", "t1"]], [], ⟨0, 0, 0⟩⟩).msg =
      "No revert entry found for ir00451."
    ∧ (revert_job (fun _ _ => none) "t0" "IR00451"
        ⟨[], [], some [["Job No", "Original Path", "Moved Path", "Timestamp"],
                       ["IR00451", "Y:\\a", "Z:\\b", "t1"]], [], ⟨0, 0, 0⟩⟩).plan =
      some ("Z:\\b", "Y:\\a") := by
  decide

/-- C6 (amended): job key matching is upper-cased (case-insensitive) in
the ingest watcher folder search and in the reconciliation sibling
search, but the MoveTransaction lookup of revert_job compares the
requested key to ledger rows by exact, case-sensitive string equality. -/
theorem C6_amended_case_sensitivity :
    (∀ (fs : Fs) (cp j1 j2 : String), pyUpper j1 = pyUpper j2 →
      find_matching_job_folder fs cp j1 = find_matching_job_folder fs cp j2)
    ∧ (∀ (j1 j2 : String) (it : String × Bool), pyUpper j1 = pyUpper j2 →
      ingestFolderMatch j1 it = ingestFolderMatch j2 it)
    ∧ (∃ j1 j2 : String, ∃ r : List String, pyUpper j1 = pyUpper j2
        ∧ revertRowMatches j1 r = true ∧ revertRowMatches j2 r = false) := by
  refine ⟨fun fs cp j1 j2 h => ?_, fun j1 j2 it h => ?_,
    "IR1", "ir1", ["IR1", "a", "b"], by decide, by decide, by decide⟩
  · unfold find_matching_job_folder
    rw [h]
  · unfold ingestFolderMatch
    rw [h]

/-- Witness for C6 (amended): the sibling search of reconciliation gives
the same answer for IR00451 and Ir00451. -/
theorem C6_amended_case_sensitivity_witness :
    find_matching_job_folder
        [⟨pjoin (pjoin BILLING_BASE "BMW INDIA PVT LTD") "ir00451 - BMW", true⟩]
        (pjoin BILLING_BASE "BMW INDIA PVT LTD") "IR00451"
      = find_matching_job_folder
        [⟨pjoin (pjoin BILLING_BASE "BMW INDIA PVT LTD") "ir00451 - BMW", true⟩]
        (pjoin BILLING_BASE "BMW INDIA PVT LTD") "Ir00451" :=
  C6_amended_case_sensitivity.1
    [⟨pjoin (pjoin BILLING_BASE "BMW INDIA PVT LTD") "ir00451 - BMW", true⟩]
    (pjoin BILLING_BASE "BMW INDIA PVT LTD") "IR00451" "Ir00451" (by decide)

/-- Counterexample to C5 as stated: a PDF without the five-digit IR key is
a terminal SKIPPED outcome of the ingest cycle, yet no row is appended to
the ingest log; the skip is only counted. -/
theorem C5_counterexample :
    (watcher_ooc_upload_step (fun _ _ => none) "t0" ⟨[], [], ⟨0, 0, 0⟩⟩ "notes.pdf").2 =
      .skippedNoPattern
    ∧ (watcher_ooc_upload_step (fun _ _ => none) "t0" ⟨[], [], ⟨0, 0, 0⟩⟩ "notes.pdf").1.log = []
    ∧ (watcher_ooc_upload_step (fun _ _ => none) "t0"
        ⟨[], [], ⟨0, 0, 0⟩⟩ "notes.pdf").1.stats.skipped = 1 := by
  decide

/-- C5 (amended): in the ingest watcher a MOVED or ERROR outcome appends
exactly one row to the ingest log carrying the timestamp, the filename,
the resolved key, the destination path and the status, while a SKIPPED
file (no recognizable five-digit IR key) appends no log row and only
increments the skip counter. -/
theorem C5_amended_ingest_logging (fail : String → String → Option (Bool × String))
    (now : String) (s : OocState) (filename : String) :
    ((watcher_ooc_upload_step fail now s filename).2 = .moved ∨
      (watcher_ooc_upload_step fail now s filename).2 = .errorNoFolder ∨
      (watcher_ooc_upload_step fail now s filename).2 = .errorMoveFail →
      ∃ jobNo destPath status,
        (watcher_ooc_upload_step fail now s filename).1.log =
          s.log ++ [⟨now, filename, jobNo, destPath, status⟩])
    ∧ ((watcher_ooc_upload_step fail now s filename).2 = .skippedNoPattern →
      (watcher_ooc_upload_step fail now s filename).1.log = s.log
      ∧ (watcher_ooc_upload_step fail now s filename).1.stats.skipped =
          s.stats.skipped + 1) := by
  simp only [watcher_ooc_upload_step]
  repeat' split
  all_goals refine ⟨fun h => ?_, fun h2 => ?_⟩
  all_goals first
    | exact ⟨_, _, _, rfl⟩
    | exact ⟨rfl, rfl⟩
    | simp at h
    | simp at h2

/-- Witness for C5 (amended): an inbox PDF with key IR00451 but no job
folder anywhere yields an ERROR row appended; notes.pdf is skipped with
no row and one skip count. -/
theorem C5_amended_ingest_logging_witness :
    (∃ jobNo destPath status,
      (watcher_ooc_upload_step (fun _ _ => none) "t0"
          ⟨[], [], ⟨0, 0, 0⟩⟩ "Invoice_IR_00451.pdf").1.log =
        [] ++ [⟨"t0", "Invoice_IR_00451.pdf", jobNo, destPath, status⟩])
    ∧ ((watcher_ooc_upload_step (fun _ _ => none) "t0" ⟨[], [], ⟨0, 0, 0⟩⟩ "notes.pdf").1.log = []
      ∧ (watcher_ooc_upload_step (fun _ _ => none) "t0"
          ⟨[], [], ⟨0, 0, 0⟩⟩ "notes.pdf").1.stats.skipped = 0 + 1) :=
  ⟨(C5_amended_ingest_logging (fun _ _ => none) "t0" ⟨[], [], ⟨0, 0, 0⟩⟩
      "Invoice_IR_00451.pdf").1 (Or.inr (Or.inl (by decide))),
   (C5_amended_ingest_logging (fun _ _ => none) "t0" ⟨[], [], ⟨0, 0, 0⟩⟩
      "notes.pdf").2 (by decide)⟩

/-- C1: promotion is transactionally paired with the ledger.  When the
processing of a trigger document ends MOVED, exactly one MoveTransaction
row [job, original path, final path, timestamp] is appended to the
transaction log; when the folder move raises, the transaction log is
unchanged and the job folder is still present at its original location. -/
theorem C1_promotion_ledger_pairing (fail : String → String → Option (Bool × String))
    (extractedText : String → String) (now : String) (s : JobMoveState) (tp : String) :
    ((watcher_job_move_step fail extractedText now s tp).2 = .moved →
      ∃ dest,
        (watcher_job_move_step fail extractedText now s tp).1.revertLog =
          some (s.revertLog.getD [] ++ [[basename (dirname tp), dirname tp, dest, now]]))
    ∧ ((watcher_job_move_step fail extractedText now s tp).2 = .errorMoveFail →
      (watcher_job_move_step fail extractedText now s tp).1.revertLog = s.revertLog
      ∧ pathExists (watcher_job_move_step fail extractedText now s tp).1.fs (dirname tp) =
          true) := by
  simp only [watcher_job_move_step]
  split
  · exact ⟨fun h => by simp at h, fun h => by simp at h⟩
  split
  · exact ⟨fun h => by simp at h, fun h => by simp at h⟩
  rename_i hup hpath
  split
  · exact ⟨fun h => by simp at h, fun h => by simp at h⟩
  rename_i htext
  split
  · exact ⟨fun h => by simp at h, fun h => by simp at h⟩
  rename_i importer heqImp
  split
  · exact ⟨fun h => by simp at h, fun h => by simp at h⟩
  rename_i billing heqGet
  have hpathT : pathExists s.fs (dirname tp) = true := by
    cases hb : pathExists s.fs (dirname tp) with
    | false => exact absurd (by rw [hb]; rfl) hpath
    | true => rfl
  split
  · rename_i finalPath heqRes
    refine ⟨fun h => ⟨finalPath, ?_⟩, fun h => by simp at h⟩
    exact move_folder_res_ok fail now s.fs s.revertLog (dirname tp)
      (pjoin BILLING_BASE billing) finalPath heqRes
  · rename_i fe heqRes
    refine ⟨fun h => by simp at h, fun h => ?_⟩
    have hm := move_folder_res_error fail now s.fs s.revertLog (dirname tp)
      (pjoin BILLING_BASE billing) fe heqRes
    refine ⟨hm.1, ?_⟩
    show pathExists (move_folder fail now s.fs s.revertLog (dirname tp)
      (pjoin BILLING_BASE billing)).fs (dirname tp) = true
    rw [hm.2]
    exact pathExists_makedirs_of s.fs (pjoin BILLING_BASE billing) (dirname tp) hpathT

/-- Witness for C1: promoting IR00451 on trigger Out_of_Charge_IR_00451.pdf
with extracted text naming ABBOTT HEALTHCARE appends exactly one ledger
row; the same promotion under a permission failure leaves the ledger
untouched and the folder still present. -/
theorem C1_promotion_ledger_pairing_witness :
    (∃ dest,
      (watcher_job_move_step (fun _ _ => none) (fun _ => "ABBOTT HEALTHCARE PRIVATE LIMITED")
          "t0"
          ⟨[⟨pjoin SOURCE_BASE "IR00451", true⟩,
            ⟨pjoin (pjoin SOURCE_BASE "IR00451") "Out_of_Charge_IR_00451.pdf", false⟩],
           [], some [["Job No", "Original Path", "Moved Path", "Timestamp"]], [], ⟨0, 0, 0⟩⟩
          (pjoin (pjoin SOURCE_BASE "IR00451") "Out_of_Charge_IR_00451.pdf")).1.revertLog =
        some ((some [["Job No", "Original Path", "Moved Path", "Timestamp"]] :
            Option (List (List String))).getD [] ++
          [[basename (dirname (pjoin (pjoin SOURCE_BASE "IR00451") "Out_of_Charge_IR_00451.pdf")),
            dirname (pjoin (pjoin SOURCE_BASE "IR00451") "Out_of_Charge_IR_00451.pdf"),
            dest, "t0"]]))
    ∧ ((watcher_job_move_step (fun _ _ => some (true, "perm"))
          (fun _ => "ABBOTT HEALTHCARE PRIVATE LIMITED") "t0"
          ⟨[⟨pjoin SOURCE_BASE "IR00451", true⟩,
            ⟨pjoin (pjoin SOURCE_BASE "IR00451") "Out_of_Charge_IR_00451.pdf", false⟩],
           [], some [["Job No", "Original Path", "Moved Path", "Timestamp"]], [], ⟨0, 0, 0⟩⟩
          (pjoin (pjoin SOURCE_BASE "IR00451") "Out_of_Charge_IR_00451.pdf")).1.revertLog =
        some [["Job No", "Original Path", "Moved Path", "Timestamp"]]
      ∧ pathExists
          (watcher_job_move_step (fun _ _ => some (true, "perm"))
            (fun _ => "ABBOTT HEALTHCARE PRIVATE LIMITED") "t0"
            ⟨[⟨pjoin SOURCE_BASE "IR00451", true⟩,
              ⟨pjoin (pjoin SOURCE_BASE "IR00451") "Out_of_Charge_IR_00451.pdf", false⟩],
             [], some [["Job No", "Original Path", "Moved Path", "Timestamp"]], [], ⟨0, 0, 0⟩⟩
            (pjoin (pjoin SOURCE_BASE "IR00451") "Out_of_Charge_IR_00451.pdf")).1.fs
          (dirname (pjoin (pjoin SOURCE_BASE "IR00451") "Out_of_Charge_IR_00451.pdf")) =
        true) :=
  ⟨(C1_promotion_ledger_pairing (fun _ _ => none)
      (fun _ => "ABBOTT HEALTHCARE PRIVATE LIMITED") "t0"
      ⟨[⟨pjoin SOURCE_BASE "IR00451", true⟩,
        ⟨pjoin (pjoin SOURCE_BASE "IR00451") "Out_of_Charge_IR_00451.pdf", false⟩],
       [], some [["Job No", "Original Path", "Moved Path", "Timestamp"]], [], ⟨0, 0, 0⟩⟩
      (pjoin (pjoin SOURCE_BASE "IR00451") "Out_of_Charge_IR_00451.pdf")).1 (by decide),
   (C1_promotion_ledger_pairing (fun _ _ => some (true, "perm"))
      (fun _ => "ABBOTT HEALTHCARE PRIVATE LIMITED") "t0"
      ⟨[⟨pjoin SOURCE_BASE "IR00451", true⟩,
        ⟨pjoin (pjoin SOURCE_BASE "IR00451") "Out_of_Charge_IR_00451.pdf", false⟩],
       [], some [["Job No", "Original Path", "Moved Path", "Timestamp"]], [], ⟨0, 0, 0⟩⟩
      (pjoin (pjoin SOURCE_BASE "IR00451") "Out_of_Charge_IR_00451.pdf")).2 (by decide)⟩

/-- C8: unique_filename returns its argument unchanged when no file exists
at that path, and when the candidate and its counter variants 1 to N-1 all
exist while the N variant does not, it returns the N variant, which
collides with no existing file. -/
theorem C8_unique_filename_collision_free :
    (∀ (fs : Fs) (p : String), pathExists fs p = false → unique_filename fs p = p)
    ∧ (∀ (fs : Fs) (p : String) (N : Nat), 1 ≤ N → pathExists fs p = true →
      (∀ c, 1 ≤ c → c < N → pathExists fs (variantPath p c) = true) →
      pathExists fs (variantPath p N) = false →
      unique_filename fs p = variantPath p N
        ∧ pathExists fs (unique_filename fs p) = false) := by
  constructor
  · intro fs p hfree
    unfold unique_filename
    rw [if_neg (by rw [hfree]; exact Bool.false_ne_true)]
  · intro fs p N hN hp hmem hfree
    have hlen : N - 1 ≤ fs.length := by
      have hnd : ((List.range' 1 (N - 1)).map (variantPath p)).Nodup :=
        (List.nodup_range' 1 (N - 1)).map (variantPath_injective p)
      have hmm : ∀ q ∈ (List.range' 1 (N - 1)).map (variantPath p),
          pathExists fs q = true := by
        intro q hq
        rw [List.mem_map] at hq
        obtain ⟨c, hc, rfl⟩ := hq
        rw [List.mem_range'_1] at hc
        exact hmem c hc.1 (by omega)
      have hle := nodup_paths_length_le fs _ hnd hmm
      simpa [List.length_map, List.length_range'] using hle
    have hmain : uniqueLoop fs (splitext p).1 (splitext p).2 (fs.length + 1) 1 =
        (splitext p).1 ++ "_" ++ natRepr N ++ (splitext p).2 := by
      apply uniqueLoop_spec fs (splitext p).1 (splitext p).2 (fs.length + 1) 1 N hN (by omega)
      · intro c h1 h2
        exact hmem c h1 h2
      · exact hfree
    constructor
    · unfold unique_filename
      rw [if_pos hp]
      exact hmain
    · unfold unique_filename
      rw [if_pos hp]
      rw [hmain]
      exact hfree

/-- Witness for C8: an empty filesystem returns the candidate unchanged,
and with f.pdf and f_1.pdf existing the returned path is the f_2.pdf
variant. -/
theorem C8_unique_filename_collision_free_witness :
    unique_filename [] "Z:\\a\\f.pdf" = "Z:\\a\\f.pdf"
    ∧ unique_filename [⟨"Z:\\a\\f.pdf", false⟩, ⟨"Z:\\a\\f_1.pdf", false⟩] "Z:\\a\\f.pdf" =
        variantPath "Z:\\a\\f.pdf" 2 :=
  ⟨C8_unique_filename_collision_free.1 [] "Z:\\a\\f.pdf" (by decide),
   (C8_unique_filename_collision_free.2 [⟨"Z:\\a\\f.pdf", false⟩, ⟨"Z:\\a\\f_1.pdf", false⟩]
      "Z:\\a\\f.pdf" 2 (by omega) (by decide)
      (fun c h1 h2 => by
        have hc : c = 1 := by omega
        subst hc
        decide)
      (by decide)).1⟩

end UFM
